import Mathlib

/-!
Verification of the background-combination core of sherpa
(`sherpa/astro/background.py`): `BackgroundSumModel` and `add_response`.

The embedding works over exact rationals (`ℚ`) in place of Python floats,
per-bin arrays are functions `ℕ → ℚ`, and Python exceptions are `Except`.
A model is a callable plus a display name; grid positional/keyword
arguments are abstracted as a single value of type `List ℚ` (the grid).

Parts of the repository that `background.py` calls but that are not in the
excerpt (`DataPHA.sum_background_data`, `CompositeModel.__init__`, the
`Session` registry) are modelled from the spec; each such definition says
so in its doc comment.
-/

/-- Errors raised by the core.  `bkgmodel key` embeds
`DataErr('bkgmodel', key)` raised in `BackgroundSumModel.calc` when a
background identifier attached to the dataset has no entry in the model
mapping.  `emptyBackgroundMapping` embeds the configuration error that the
spec requires when a `BackgroundSumModel` is constructed over an empty
mapping. -/
inductive DataErr : Type where
  | bkgmodel (key : ℕ)
  | emptyBackgroundMapping
  deriving DecidableEq, Repr

/-- Metadata of one background dataset attached to a source dataset:
its exposure time and its backscale factor.  The spec's documented caveat
restricts numerical correctness to scalar backscale/exposure, so both are
scalars here. -/
structure BkgData : Type where
  exposure : ℚ
  backscal : ℚ
  deriving DecidableEq, Repr

/-- A PHA source dataset, reduced to the fields the background core reads:
exposure, backscale, the association list of attached background datasets
keyed by their identifier, and the background-subtracted flag. -/
structure DataPHA : Type where
  exposure : ℚ
  backscal : ℚ
  bkgs : List (ℕ × BkgData)
  subtracted : Bool
  deriving DecidableEq, Repr

/-- The exposure/backscale correction ratio of one background relative to
the source: `(src_exposure / bkg_exposure) * (src_backscale / bkg_backscale)`. -/
def bkgFactor (d : DataPHA) (b : BkgData) : ℚ :=
  (d.exposure / b.exposure) * (d.backscal / b.backscal)

/-- Loop of `sum_background_data`: walk the attached backgrounds in order,
apply the per-key callback, scale its result by the background's
exposure/backscale ratio and accumulate; a callback failure aborts the
walk and propagates. -/
def DataPHA.sumBkgAux {α : Type} [Add α] [SMul ℚ α]
    (d : DataPHA) (f : ℕ → BkgData → Except DataErr α) :
    List (ℕ × BkgData) → α → Except DataErr α
  | [], acc => .ok acc
  | kb :: rest, acc =>
    match f kb.1 kb.2 with
    | .error e => .error e
    | .ok v => d.sumBkgAux f rest (acc + bkgFactor d kb.2 • v)

/-- Modelled from the spec: `DataPHA.sum_background_data` lives in
`sherpa/astro/data.py`, which is not part of the excerpt.  Per the spec,
the dataset's own background-combination routine takes a per-key
evaluation callback, applies it to every background attached to the
dataset, weights each result by the ratio
`(src_exposure/bkg_exposure)*(src_backscale/bkg_backscale)` and sums the
weighted results; a missing-model condition raised by the callback is
propagated rather than skipped. -/
def DataPHA.sum_background_data {α : Type} [Zero α] [Add α] [SMul ℚ α]
    (d : DataPHA) (f : ℕ → BkgData → Except DataErr α) : Except DataErr α :=
  d.sumBkgAux f d.bkgs 0

/-- An evaluable model: a display name plus a callable taking the grid
arguments and returning a per-bin array.  Parameter state is assumed
already pushed into the model, matching the contract of
`BackgroundSumModel.calc`. -/
structure Model : Type where
  name : String
  eval : List ℚ → ℕ → ℚ

/-- Rendering of the aggregate scale factor in the display name; embeds
the `'%g' % scale_factor` formatting of the Python source on the exact
rationals of this embedding. -/
def fmtG (q : ℚ) : String := toString q

/-- Modelled from the spec: `CompositeModel.__init__` lives in
`sherpa/models/model.py`, which is not part of the excerpt.  The spec
requires that constructing the combined model over an empty background
mapping "fail immediately at construction, not deferred to evaluation";
with a non-empty mapping, registering the parts succeeds with no further
validation. -/
def CompositeModel_init (parts : List Model) : Except DataErr Unit :=
  if parts.isEmpty then .error .emptyBackgroundMapping else .ok ()

/-- The combined background model: the source dataset, the mapping from
background identifier to background model, and the display name built at
construction. -/
structure BackgroundSumModel : Type where
  srcdata : DataPHA
  bkgmodels : List (ℕ × Model)
  name : String

/-- Embeds `BackgroundSumModel.__init__`: record the dataset and mapping,
compute the aggregate scale factor via the dataset's
`sum_background_data` with a constant-1 callback, build the display name
`"<scale> * (<name1> + ... + <nameN>)"` from the mapping's model names in
order, and register the parts with `CompositeModel.__init__`. -/
def BackgroundSumModel.init (srcdata : DataPHA) (bkgmodels : List (ℕ × Model)) :
    Except DataErr BackgroundSumModel :=
  match srcdata.sum_background_data (fun _ _ => .ok (1 : ℚ)) with
  | .error e => .error e
  | .ok scale_factor =>
    let bkgnames := bkgmodels.map (fun kv => kv.2.name)
    let name := fmtG scale_factor ++ " * (" ++ String.intercalate " + " bkgnames ++ ")"
    match CompositeModel_init (bkgmodels.map (fun kv => kv.2)) with
    | .error e => .error e
    | .ok _ => .ok ⟨srcdata, bkgmodels, name⟩

/-- Embeds `BackgroundSumModel.calc`: for each background key known to the
source dataset look up the model in the mapping (raising
`DataErr('bkgmodel', key)` when absent), evaluate it on the forwarded grid
arguments, and let the dataset's `sum_background_data` apply the
background-to-source correction factors.  The parameter vector `p` is
unused, matching the FIXME in the source: parameter values are assumed
already pushed into the wrapped models. -/
def BackgroundSumModel.calc' (self : BackgroundSumModel) (p : List ℚ)
    (args : List ℚ) : Except DataErr (ℕ → ℚ) :=
  let eval_bkg_model : ℕ → BkgData → Except DataErr (ℕ → ℚ) := fun key _bkg =>
    match List.lookup key self.bkgmodels with
    | none => .error (.bkgmodel key)
    | some bmodel => .ok (bmodel.eval args)
  self.srcdata.sum_background_data eval_bkg_model

/-- A full (possibly composite, possibly fallible) model: a callable on a
parameter vector and grid arguments. -/
def FModel : Type := List ℚ → List ℚ → Except DataErr (ℕ → ℚ)

/-- A bare model viewed as a full model; its evaluation never fails and
ignores the parameter vector (parameters are pushed out-of-band). -/
def Model.lift (m : Model) : FModel := fun _p args => .ok (m.eval args)

/-- A combined background model viewed as a full model. -/
def BackgroundSumModel.toF (m : BackgroundSumModel) : FModel :=
  fun p args => m.calc' p args

/-- Sum of two models, evaluated per bin on the shared grid. -/
def FModel.add (a b : FModel) : FModel := fun p args =>
  match a p args with
  | .error e => .error e
  | .ok x =>
    match b p args with
    | .error e => .error e
    | .ok y => .ok (fun bin => x bin + y bin)

/-- Modelled from the spec: the `Session` registry
(`sherpa/astro/ui/utils.py`) is not part of the excerpt.  It exposes the
background source models registered per dataset identifier
(`_background_sources.get(id, {})`, an empty mapping when none) and the
response-application transform for a dataset (`_get_response`). -/
structure Session : Type where
  background_sources : ℕ → List (ℕ × Model)
  get_response : ℕ → DataPHA → FModel → FModel

/-- Embeds `add_response`: when the dataset is not background-subtracted
and at least one background source model is registered for the
identifier, replace the model by its sum with a `BackgroundSumModel` over
the dataset and that mapping; then apply the dataset's response. -/
def add_response (session : Session) (id : ℕ) (data : DataPHA)
    (model : Model) : Except DataErr FModel :=
  let withBkg : Except DataErr FModel :=
    if !data.subtracted then
      let bkg_srcs := session.background_sources id
      if bkg_srcs.length ≠ 0 then
        match BackgroundSumModel.init data bkg_srcs with
        | .error e => .error e
        | .ok bsm => .ok (FModel.add model.lift bsm.toF)
      else .ok model.lift
    else .ok model.lift
  match withBkg with
  | .error e => .error e
  | .ok m => .ok (session.get_response id data m)

/-- The aggregate scale factor shown in the display name: the sum of the
exposure/backscale ratios of every background attached to the dataset. -/
def aggScale (d : DataPHA) : ℚ :=
  (d.bkgs.map (fun kb => bkgFactor d kb.2)).sum

/-- The display name `BackgroundSumModel.__init__` builds for a dataset
and mapping. -/
def mkName (d : DataPHA) (bm : List (ℕ × Model)) : String :=
  fmtG (aggScale d) ++ " * (" ++
    String.intercalate " + " (bm.map (fun kv => kv.2.name)) ++ ")"

/-- Functional update of the exposure of the background stored under
`key`: the embedding's rendering of an external edit of mutable dataset
metadata between two evaluations. -/
def DataPHA.setBkgExposure (d : DataPHA) (key : ℕ) (e : ℚ) : DataPHA :=
  { d with
    bkgs := d.bkgs.map (fun kb =>
      if kb.1 = key then (kb.1, { kb.2 with exposure := e }) else kb) }

/-- Example background dataset: exposure `1201 * 2.5`, backscale `0.4`. -/
def exBkgA : BkgData := ⟨1201 * (5 / 2 : ℚ), 2 / 5⟩

/-- Example background dataset: exposure `2402`, backscale `0.2`. -/
def exBkgB : BkgData := ⟨2402, 1 / 5⟩

/-- Example source dataset with one attached background, exposure `1201`,
backscale `0.1` (the spec's concrete scenario). -/
def exSrc : DataPHA := ⟨1201, 1 / 10, [(1, exBkgA)], false⟩

/-- Example source dataset with two attached backgrounds. -/
def exSrc2 : DataPHA := ⟨1201, 1 / 10, [(1, exBkgA), (2, exBkgB)], false⟩

/-- Example source dataset that is already background subtracted. -/
def exSubtracted : DataPHA := ⟨1201, 1 / 10, [(1, exBkgA)], true⟩

/-- Example background model returning the constant rate `0.1` on every
bin. -/
def exModelA : Model := ⟨"bgndA", fun _ _ => 1 / 10⟩

/-- Second example background model, constant rate `3`. -/
def exModelB : Model := ⟨"bgndB", fun _ _ => 3⟩

/-- Shared evaluation function for the two models that differ only in
name. -/
def exEval : List ℚ → ℕ → ℚ := fun args bin => (args.headD 0) + bin

/-- Example model with evaluation `exEval` and name "bgndC". -/
def exModelC : Model := ⟨"bgndC", exEval⟩

/-- Example model with evaluation `exEval` and name "bgndD". -/
def exModelD : Model := ⟨"bgndD", exEval⟩

/-- Example bare source model, constant `2`. -/
def exBare : Model := ⟨"srcmdl", fun _ _ => 2⟩

/-- Example grid arguments. -/
def exGrid : List ℚ := [1 / 2, 1, 3 / 2]

/-- The combined model `BackgroundSumModel.init` builds over `exSrc` and
the single-entry mapping `{1 ↦ exModelA}`. -/
def exSumA : BackgroundSumModel := ⟨exSrc, [(1, exModelA)], mkName exSrc [(1, exModelA)]⟩

/-- Example session registry: one background model registered under
dataset identifier 1, none elsewhere; the response transform is the
identity. -/
def exSession : Session := ⟨fun i => if i = 1 then [(1, exModelA)] else [], fun _ _ f => f⟩

lemma sumBkgAux_const_one (d : DataPHA) :
    ∀ (bs : List (ℕ × BkgData)) (acc : ℚ),
      d.sumBkgAux (fun _ _ => .ok (1 : ℚ)) bs acc
        = .ok (acc + (bs.map (fun kb => bkgFactor d kb.2)).sum) := by
  intro bs
  induction bs with
  | nil => intro acc; simp [DataPHA.sumBkgAux]
  | cons kb rest ih =>
    intro acc
    simp only [DataPHA.sumBkgAux, ih, List.map_cons, List.sum_cons, smul_eq_mul,
      mul_one]
    rw [add_assoc]

lemma sum_background_data_const_one (d : DataPHA) :
    d.sum_background_data (fun _ _ => .ok (1 : ℚ)) = .ok (aggScale d) := by
  simp [DataPHA.sum_background_data, sumBkgAux_const_one, aggScale]

lemma init_eq_ok (d : DataPHA) (bm : List (ℕ × Model)) (hbm : bm ≠ []) :
    BackgroundSumModel.init d bm = .ok ⟨d, bm, mkName d bm⟩ := by
  unfold BackgroundSumModel.init
  rw [sum_background_data_const_one]
  simp [CompositeModel_init, List.isEmpty_iff, hbm, mkName]

lemma init_empty_fails (d : DataPHA) :
    BackgroundSumModel.init d [] = .error .emptyBackgroundMapping := by
  unfold BackgroundSumModel.init
  rw [sum_background_data_const_one]
  simp [CompositeModel_init]

lemma init_inv (d : DataPHA) (bm : List (ℕ × Model)) (m : BackgroundSumModel)
    (hinit : BackgroundSumModel.init d bm = .ok m) :
    m = ⟨d, bm, mkName d bm⟩ := by
  rcases bm with _ | ⟨kv, rest⟩
  · rw [init_empty_fails] at hinit
    exact absurd hinit (by simp)
  · rw [init_eq_ok d (kv :: rest) (by simp)] at hinit
    exact (Except.ok.inj hinit).symm

lemma calc_single (d : DataPHA) (k : ℕ) (b : BkgData) (bm : List (ℕ × Model))
    (mo : Model) (n : String) (p args : List ℚ)
    (hd : d.bkgs = [(k, b)]) (hl : List.lookup k bm = some mo) :
    (BackgroundSumModel.mk d bm n).calc' p args
      = .ok (bkgFactor d b • mo.eval args) := by
  simp [BackgroundSumModel.calc', DataPHA.sum_background_data, hd,
    DataPHA.sumBkgAux, hl]

lemma sumBkgAux_missing (d : DataPHA) (bm : List (ℕ × Model)) (args : List ℚ)
    (k : ℕ) (b : BkgData) (bs2 : List (ℕ × BkgData)) :
    ∀ (bs1 : List (ℕ × BkgData)) (acc : ℕ → ℚ),
      (∀ kb ∈ bs1, (List.lookup kb.1 bm).isSome = true) →
      List.lookup k bm = none →
      d.sumBkgAux (fun key _bkg =>
          match List.lookup key bm with
          | none => .error (.bkgmodel key)
          | some bmodel => .ok (bmodel.eval args)) (bs1 ++ (k, b) :: bs2) acc
        = .error (.bkgmodel k) := by
  intro bs1
  induction bs1 with
  | nil =>
    intro acc _ hk
    simp [DataPHA.sumBkgAux, hk]
  | cons kb rest ih =>
    intro acc hpre hk
    have hkb : (List.lookup kb.1 bm).isSome = true := hpre kb (by simp)
    rcases Option.isSome_iff_exists.mp hkb with ⟨mo, hmo⟩
    have hrest : ∀ kb ∈ rest, (List.lookup kb.1 bm).isSome = true :=
      fun kb2 h2 => hpre kb2 (by simp [h2])
    simp only [List.cons_append, DataPHA.sumBkgAux, hmo]
    exact ih _ hrest hk

/-- C1: for a source dataset with a single attached background whose
exposure and backscale are scalars, the constructed `BackgroundSumModel`
evaluates on any grid to `ratio • background_model(grid)` with
`ratio = (src_exposure/bkg_exposure) * (src_backscale/bkg_backscale)`. -/
theorem c1_single_bkg_scaling (d : DataPHA) (k : ℕ) (b : BkgData) (bg : Model)
    (m : BackgroundSumModel) (p args : List ℚ)
    (hd : d.bkgs = [(k, b)])
    (hinit : BackgroundSumModel.init d [(k, bg)] = .ok m) :
    m.calc' p args = .ok (bkgFactor d b • bg.eval args) := by
  have hm := init_inv _ _ _ hinit
  subst hm
  exact calc_single d k b [(k, bg)] bg _ p args hd (by simp)

/-- C1 witness: the spec's concrete scenario.  Source exposure 1201 and
backscale 0.1, background exposure 1201 * 2.5 and backscale 0.4, and a
background model returning the constant 0.1; the combined model returns
`(1/10) • bg(grid)` and each bin evaluates to 0.01. -/
theorem c1_single_bkg_scaling_witness :
    exSumA.calc' [] exGrid = .ok (bkgFactor exSrc exBkgA • exModelA.eval exGrid)
    ∧ (bkgFactor exSrc exBkgA • exModelA.eval exGrid) 0 = 1 / 100
    ∧ (bkgFactor exSrc exBkgA • exModelA.eval exGrid) 9 = 1 / 100 := by
  refine ⟨c1_single_bkg_scaling exSrc 1 exBkgA exModelA exSumA [] exGrid rfl
    (init_eq_ok _ _ (by simp)), ?_, ?_⟩ <;>
    norm_num [bkgFactor, exSrc, exBkgA, exModelA, Pi.smul_apply, smul_eq_mul]

/-- C5: constructing a `BackgroundSumModel` over an empty background-model
mapping fails at construction with the empty-mapping configuration
error. -/
theorem c5_empty_mapping_fails (d : DataPHA) :
    BackgroundSumModel.init d [] = .error .emptyBackgroundMapping :=
  init_empty_fails d

/-- C7: a successfully constructed `BackgroundSumModel` has display name
`"<scale> * (<name1> + ... + <nameN>)"`, where `<scale>` renders the sum
of the per-background exposure/backscale ratios and the wrapped model
names are joined by " + " in mapping order. -/
theorem c7_display_name (d : DataPHA) (bm : List (ℕ × Model))
    (m : BackgroundSumModel) (hbm : bm ≠ [])
    (hinit : BackgroundSumModel.init d bm = .ok m) :
    m.name = fmtG (aggScale d) ++ " * (" ++
      String.intercalate " + " (bm.map (fun kv => kv.2.name)) ++ ")" := by
  have hm := init_inv _ _ _ hinit
  subst hm
  rfl

/-- C7 witness: the two-background example; the name renders the
aggregate scale `1/10 + 1/4 = 7/20` followed by the two model names. -/
theorem c7_display_name_witness :
    (BackgroundSumModel.mk exSrc2 [(1, exModelA), (2, exModelB)]
        (mkName exSrc2 [(1, exModelA), (2, exModelB)])).name
      = fmtG (aggScale exSrc2) ++ " * (" ++
        String.intercalate " + "
          ([(1, exModelA), (2, exModelB)].map (fun kv => kv.2.name)) ++ ")" :=
  c7_display_name exSrc2 [(1, exModelA), (2, exModelB)] _ (by simp)
    (init_eq_ok _ _ (by simp))

/-- C10: the aggregate scale rendered in the display name sums the
exposure/backscale ratios of every background attached to the source
dataset, even when the supplied mapping covers only a strict subset of
the attached backgrounds. -/
theorem c10_scale_sums_all_attached (d : DataPHA) (bm : List (ℕ × Model))
    (m : BackgroundSumModel)
    (hinit : BackgroundSumModel.init d bm = .ok m)
    (hsubset : ∃ kb ∈ d.bkgs, List.lookup kb.1 bm = none) :
    ∃ rest, m.name
      = fmtG ((d.bkgs.map (fun kb => bkgFactor d kb.2)).sum) ++ rest := by
  have hm := init_inv _ _ _ hinit
  subst hm
  exact ⟨" * (" ++ String.intercalate " + "
    (bm.map (fun kv => kv.2.name)) ++ ")",
    by simp [mkName, aggScale, String.append_assoc]⟩

/-- C10 witness: over the two-background dataset, a mapping covering only
background 1 still renders the scale summed over both attached
backgrounds. -/
theorem c10_scale_sums_all_attached_witness :
    ∃ rest, (BackgroundSumModel.mk exSrc2 [(1, exModelA)]
        (mkName exSrc2 [(1, exModelA)])).name
      = fmtG ((exSrc2.bkgs.map (fun kb => bkgFactor exSrc2 kb.2)).sum) ++ rest :=
  c10_scale_sums_all_attached exSrc2 [(1, exModelA)] _
    (init_eq_ok _ _ (by simp)) ⟨(2, exBkgB), by simp [exSrc2], by simp⟩

/-- C4: when the dataset expects a background key with no entry in the
mapping, construction still succeeds (no eager key validation), and
evaluation fails with the missing-background-model error identifying that
key (the first missing key in the dataset's background order). -/
theorem c4_missing_key_deferred (d : DataPHA) (bm : List (ℕ × Model)) (k : ℕ)
    (b : BkgData) (bs1 bs2 : List (ℕ × BkgData)) (p args : List ℚ)
    (hbm : bm ≠ [])
    (hd : d.bkgs = bs1 ++ (k, b) :: bs2)
    (hpre : ∀ kb ∈ bs1, (List.lookup kb.1 bm).isSome = true)
    (hk : List.lookup k bm = none) :
    BackgroundSumModel.init d bm = .ok ⟨d, bm, mkName d bm⟩
    ∧ (BackgroundSumModel.mk d bm (mkName d bm)).calc' p args
        = .error (.bkgmodel k) := by
  refine ⟨init_eq_ok d bm hbm, ?_⟩
  show d.sumBkgAux _ d.bkgs 0 = .error (.bkgmodel k)
  rw [hd]
  exact sumBkgAux_missing d bm args k b bs2 bs1 0 hpre hk

/-- C4 witness: the two-background dataset with a mapping holding only
key 1; construction succeeds and evaluation fails naming key 2. -/
theorem c4_missing_key_deferred_witness :
    BackgroundSumModel.init exSrc2 [(1, exModelA)]
      = .ok ⟨exSrc2, [(1, exModelA)], mkName exSrc2 [(1, exModelA)]⟩
    ∧ (BackgroundSumModel.mk exSrc2 [(1, exModelA)]
        (mkName exSrc2 [(1, exModelA)])).calc' [] exGrid
        = .error (.bkgmodel 2) :=
  c4_missing_key_deferred exSrc2 [(1, exModelA)] 2 exBkgB [(1, exBkgA)] []
    [] exGrid (by simp) rfl (by intro kb hkb; simp at hkb; simp [hkb]) rfl

/-- C6: with two attached backgrounds of ratios r1, r2 and models m1, m2,
the constructed model evaluates to `r1 • m1(grid) + r2 • m2(grid)`, and
the result does not depend on the insertion order of the two mapping
entries. -/
theorem c6_two_bkgs_order_independent (d : DataPHA) (k1 k2 : ℕ)
    (b1 b2 : BkgData) (m1 m2 : Model) (mA mB : BackgroundSumModel)
    (p args : List ℚ)
    (hd : d.bkgs = [(k1, b1), (k2, b2)])
    (hne : k1 ≠ k2)
    (hA : BackgroundSumModel.init d [(k1, m1), (k2, m2)] = .ok mA)
    (hB : BackgroundSumModel.init d [(k2, m2), (k1, m1)] = .ok mB) :
    mA.calc' p args
      = .ok (bkgFactor d b1 • m1.eval args + bkgFactor d b2 • m2.eval args)
    ∧ mB.calc' p args = mA.calc' p args := by
  have hmA := init_inv _ _ _ hA
  subst hmA
  have hmB := init_inv _ _ _ hB
  subst hmB
  have hb12 : (k1 == k2) = false := beq_eq_false_iff_ne.mpr hne
  have hb21 : (k2 == k1) = false := beq_eq_false_iff_ne.mpr (Ne.symm hne)
  constructor
  · simp [BackgroundSumModel.calc', DataPHA.sum_background_data, hd,
      DataPHA.sumBkgAux, List.lookup, hb21]
  · simp [BackgroundSumModel.calc', DataPHA.sum_background_data, hd,
      DataPHA.sumBkgAux, List.lookup, hb12, hb21]

/-- C6 witness: the two-background example dataset with both mapping
orders. -/
theorem c6_two_bkgs_order_independent_witness :
    (BackgroundSumModel.mk exSrc2 [(1, exModelA), (2, exModelB)]
        (mkName exSrc2 [(1, exModelA), (2, exModelB)])).calc' [] exGrid
      = .ok (bkgFactor exSrc2 exBkgA • exModelA.eval exGrid
             + bkgFactor exSrc2 exBkgB • exModelB.eval exGrid)
    ∧ (BackgroundSumModel.mk exSrc2 [(2, exModelB), (1, exModelA)]
        (mkName exSrc2 [(2, exModelB), (1, exModelA)])).calc' [] exGrid
      = (BackgroundSumModel.mk exSrc2 [(1, exModelA), (2, exModelB)]
          (mkName exSrc2 [(1, exModelA), (2, exModelB)])).calc' [] exGrid :=
  c6_two_bkgs_order_independent exSrc2 1 2 exBkgA exBkgB exModelA exModelB
    _ _ [] exGrid rfl (by simp) (init_eq_ok _ _ (by simp))
    (init_eq_ok _ _ (by simp))

/-- C8: `calc` ignores the parameter vector and forwards the grid
arguments verbatim to every wrapped model: two evaluations with arbitrary
parameter vectors, over mappings whose models agree pointwise at the
given grid arguments, return the same result. -/
theorem c8_params_ignored_args_forwarded (d : DataPHA)
    (bm bm' : List (ℕ × Model)) (n n' : String) (p1 p2 args : List ℚ)
    (h : ∀ k : ℕ, (List.lookup k bm).map (fun mo => mo.eval args)
        = (List.lookup k bm').map (fun mo => mo.eval args)) :
    (BackgroundSumModel.mk d bm n).calc' p1 args
      = (BackgroundSumModel.mk d bm' n').calc' p2 args := by
  show d.sum_background_data _ = d.sum_background_data _
  have hf : (fun (key : ℕ) (_bkg : BkgData) =>
      match List.lookup key bm with
      | none => Except.error (DataErr.bkgmodel key)
      | some bmodel => Except.ok (bmodel.eval args))
    = (fun (key : ℕ) (_bkg : BkgData) =>
      match List.lookup key bm' with
      | none => Except.error (DataErr.bkgmodel key)
      | some bmodel => Except.ok (bmodel.eval args)) := by
    funext key bkg
    have hk := h key
    rcases hb : List.lookup key bm with _ | mo <;>
        rcases hb' : List.lookup key bm' with _ | mo' <;>
        rw [hb, hb'] at hk <;> simp_all
  rw [hf]

/-- C8 witness: two mappings whose models share the evaluation function
but differ in name, evaluated with two different parameter vectors. -/
theorem c8_params_ignored_args_forwarded_witness :
    (BackgroundSumModel.mk exSrc [(1, exModelC)] "nC").calc' [0] exGrid
      = (BackgroundSumModel.mk exSrc [(1, exModelD)] "nD").calc' [5, 7] exGrid :=
  c8_params_ignored_args_forwarded exSrc [(1, exModelC)] [(1, exModelD)]
    "nC" "nD" [0] [5, 7] exGrid
    (by
      intro k
      by_cases hk : k = 1
      · simp [List.lookup, hk, exModelC, exModelD]
      · have hbk : (k == 1) = false := beq_eq_false_iff_ne.mpr hk
        simp [List.lookup, hbk])

/-- C9: evaluation recomputes the exposure/backscale ratio from the
dataset's current metadata on every call: with the background stored
under `k`, `calc` returns the ratio built from the stored exposure, and
after the exposure is changed to `e'` the same evaluation returns the
ratio built from `e'`. -/
theorem c9_ratio_recomputed (d : DataPHA) (k : ℕ) (b : BkgData)
    (bm : List (ℕ × Model)) (mo : Model) (n : String) (p args : List ℚ)
    (e' : ℚ)
    (hd : d.bkgs = [(k, b)])
    (hl : List.lookup k bm = some mo) :
    (BackgroundSumModel.mk d bm n).calc' p args
      = .ok ((d.exposure / b.exposure * (d.backscal / b.backscal)) • mo.eval args)
    ∧ (BackgroundSumModel.mk (d.setBkgExposure k e') bm n).calc' p args
      = .ok ((d.exposure / e' * (d.backscal / b.backscal)) • mo.eval args) := by
  constructor
  · exact calc_single d k b bm mo n p args hd hl
  · have hd' : (d.setBkgExposure k e').bkgs = [(k, { b with exposure := e' })] := by
      simp [DataPHA.setBkgExposure, hd]
    exact calc_single (d.setBkgExposure k e') k { b with exposure := e' } bm mo
      n p args hd' hl

/-- C9 witness: the single-background example; changing the background
exposure from `1201 * 2.5` to `1201` changes the applied ratio from
`1/10` to `1/4` at the next evaluation. -/
theorem c9_ratio_recomputed_witness :
    (BackgroundSumModel.mk exSrc [(1, exModelA)] "n").calc' [] exGrid
      = .ok ((exSrc.exposure / exBkgA.exposure
            * (exSrc.backscal / exBkgA.backscal)) • exModelA.eval exGrid)
    ∧ (BackgroundSumModel.mk (exSrc.setBkgExposure 1 1201) [(1, exModelA)]
        "n").calc' [] exGrid
      = .ok ((exSrc.exposure / 1201
            * (exSrc.backscal / exBkgA.backscal)) • exModelA.eval exGrid) :=
  c9_ratio_recomputed exSrc 1 exBkgA [(1, exModelA)] exModelA "n" [] exGrid
    1201 rfl rfl

/-- C2: for a non-subtracted dataset with exactly one background model
registered for its identifier, `add_response` returns the response
applied to the sum of the bare model and the combined background model,
and the returned model evaluates on a grid to
`response(bare_model(grid) + ratio * bg(grid))`. -/
theorem c2_add_response_one_bkg (s : Session) (id : ℕ) (data : DataPHA)
    (model bg : Model) (k : ℕ) (b : BkgData)
    (hsub : data.subtracted = false)
    (hreg : s.background_sources id = [(k, bg)])
    (hd : data.bkgs = [(k, b)]) :
    add_response s id data model
      = .ok (s.get_response id data (fun _p args =>
          .ok (fun bin => model.eval args bin
            + bkgFactor data b * bg.eval args bin))) := by
  have hfm : FModel.add model.lift
      (BackgroundSumModel.mk data [(k, bg)] (mkName data [(k, bg)])).toF
      = (fun _p args => .ok (fun bin => model.eval args bin
          + bkgFactor data b * bg.eval args bin)) := by
    funext p args
    have hc := calc_single data k b [(k, bg)] bg (mkName data [(k, bg)]) p args
      hd (by simp)
    simp [FModel.add, Model.lift, BackgroundSumModel.toF, hc]
  simp [add_response, hsub, hreg, init_eq_ok data [(k, bg)] (by simp), hfm]

/-- C2 witness: the example session (identity response, one background
model registered under identifier 1) over the single-background example
dataset. -/
theorem c2_add_response_one_bkg_witness :
    add_response exSession 1 exSrc exBare
      = .ok (exSession.get_response 1 exSrc (fun _p args =>
          .ok (fun bin => exBare.eval args bin
            + bkgFactor exSrc exBkgA * exModelA.eval args bin))) :=
  c2_add_response_one_bkg exSession 1 exSrc exBare exModelA 1 exBkgA rfl
    (by simp [exSession]) rfl

/-- C3: for an already-subtracted dataset, and likewise for a dataset
with no background model registered for its identifier, `add_response`
returns the response applied directly to the bare source model. -/
theorem c3_add_response_no_bkg (s : Session) (id : ℕ) (data : DataPHA)
    (model : Model)
    (h : data.subtracted = true ∨ s.background_sources id = []) :
    add_response s id data model = .ok (s.get_response id data model.lift) := by
  rcases h with hsub | hreg
  · simp [add_response, hsub]
  · simp [add_response, hreg]

/-- C3 witness: the subtracted example dataset (with a background model
registered), and the non-subtracted example dataset under identifier 2
(no background model registered). -/
theorem c3_add_response_no_bkg_witness :
    add_response exSession 1 exSubtracted exBare
      = .ok (exSession.get_response 1 exSubtracted exBare.lift)
    ∧ add_response exSession 2 exSrc exBare
      = .ok (exSession.get_response 2 exSrc exBare.lift) :=
  ⟨c3_add_response_no_bkg exSession 1 exSubtracted exBare (Or.inl rfl),
   c3_add_response_no_bkg exSession 2 exSrc exBare (Or.inr (by simp [exSession]))⟩
